import Mathlib

/-!
Shallow embedding of the ztunnel proxy core (src/proxy/inbound.rs,
src/proxy/outbound.rs, src/config.rs) for checking the natural-language
specification against the code.

IP addresses are modelled as opaque numbers (the code only constructs and
compares them); external collaborators (the state store, sockets, TLS,
the HTTP library) are modelled as oracle inputs: functions or booleans
recording the outcome the collaborator produced.
-/

namespace Ztunnel

/-- An IP address. The code only constructs and compares addresses, so an
opaque numeric model is faithful. -/
abbrev Ip := Nat

/-- 127.0.0.1, the address parsed from the literal "127.0.0.1:15008" in
outbound.rs (DirectLocal gateway). -/
def loopbackIp : Ip := 2130706433

/-- std::net::SocketAddr as used by the code: an IP plus a port. -/
structure SocketAddr where
  ip : Ip
  port : Nat
deriving DecidableEq

/-- A SPIFFE identity (trust domain, namespace, service account), per
Identity::Spiffe in the tests of inbound.rs. -/
structure Identity where
  trustDomain : String
  ns : String
  serviceAccount : String
deriving DecidableEq

namespace Outbound

/-! ## Outbound data model (src/proxy/outbound.rs)

The outbound file uses the older workload model: `remote_proxy` is the
waypoint reference, `gateway_ip` the advertised gateway socket address.
`workload.rs` itself is not part of the sources; `build_request` only
consumes the results of `find_workload` / `find_upstream`, so those
lookups are passed in as oracle functions. -/

/-- Protocol from crate::workload as consumed by outbound.rs. -/
inductive Protocol where
  | Tcp
  | Hbone
deriving DecidableEq

/-- Direction as set by build_request. -/
inductive Direction where
  | Inbound
  | Outbound
deriving DecidableEq

/-- RequestType from outbound.rs. -/
inductive RequestType where
  | ToClientWaypoint
  | ToServerWaypoint
  | Direct
  | DirectLocal
  | Passthrough
deriving DecidableEq

/-- The fields of crate::workload::Workload that build_request reads.
`remote_proxy` is the waypoint IP, `gateway_ip` the advertised gateway. -/
structure Workload where
  workloadIp : Ip
  gatewayIp : Option SocketAddr
  protocol : Protocol
  remoteProxy : Option Ip
  node : String
  name : String
deriving DecidableEq

/-- The upstream returned by WorkloadInformation::find_upstream: a workload
plus the (possibly VIP-translated) target port. -/
structure Upstream where
  workload : Workload
  port : Nat
deriving DecidableEq

/-- The Request struct built by build_request (the unused `_source` field is
kept as `source`). -/
structure Request where
  protocol : Protocol
  direction : Direction
  source : Workload
  destination : SocketAddr
  gateway : SocketAddr
  requestType : RequestType
deriving DecidableEq

/-- The slice of Config that build_request reads. -/
structure Cfg where
  localNode : Option String
deriving DecidableEq

/-- OutboundConnection::build_request (outbound.rs lines 177-240).

The two `expect` calls in the source (`"todo: source must be found"` on the
source-workload lookup and `"todo: refactor gateway ip handling"` on
`gateway_ip`) are Rust panics; they are modelled as `none`. The lookups
`find_workload` and `find_upstream` live in workload.rs (not in the given
sources) and are passed as oracle functions returning exactly what the code
destructures: `Option Workload` and `(Upstream, is_vip)`.

`build_request_core` is the classification chain of lines 188-239, with the
lookup results already destructured. -/
def build_request_core (cfg : Cfg) (source_workload : Workload) (us : Upstream)
    (is_vip : Bool) (target : SocketAddr) (gw : SocketAddr) : Request :=
  let req : Request :=
    { protocol := us.workload.protocol
      source := source_workload
      destination := ⟨us.workload.workloadIp, us.port⟩
      gateway := gw
      direction := .Outbound
      requestType := .Direct }
  match source_workload.remoteProxy with
  | some rp =>
    { req with
      requestType := .ToClientWaypoint
      direction := .Outbound
      destination := target
      gateway := ⟨rp, 15001⟩
      protocol := .Hbone }
  | none =>
    match us.workload.remoteProxy with
    | some rp =>
      let req := if is_vip then { req with destination := target } else req
      { req with
        requestType := .ToServerWaypoint
        protocol := .Hbone
        direction := .Inbound
        gateway := ⟨rp, 15006⟩ }
    | none =>
      if us.workload.node ≠ "" ∧ cfg.localNode = some us.workload.node ∧
          req.protocol = .Hbone then
        { req with requestType := .DirectLocal, gateway := ⟨loopbackIp, 15008⟩ }
      else if us.workload.name = "" then
        { req with requestType := .Passthrough }
      else
        { req with requestType := .Direct }

/-- OutboundConnection::build_request: the lookups of lines 178-187 (whose
`expect` panics are `none`), then `build_request_core`. -/
def build_request (cfg : Cfg) (findWorkload : Ip → Option Workload)
    (findUpstream : SocketAddr → Upstream × Bool)
    (downstream : Ip) (target : SocketAddr) : Option Request :=
  match findWorkload downstream with
  | none => none
  | some source_workload =>
    match (findUpstream target).1.workload.gatewayIp with
    | none => none
    | some gw =>
      some (build_request_core cfg source_workload (findUpstream target).1
        (findUpstream target).2 target gw)

/-- Outcomes of the external effects in the Hbone arm of
OutboundConnection::proxy (outbound.rs lines 85-149), as oracles:
`connectOk` is TcpStream::connect to the gateway, `handshakeOk` covers the
optional TLS connect plus the HTTP/2 handshake (the TLS and plaintext
branches run the same sequence), `sendOk` is send_request, then the
response status and the result of hyper::upgrade::on. -/
structure HboneOracles where
  connectOk : Bool
  handshakeOk : Bool
  sendOk : Bool
  responseStatus : Nat
  upgradeOk : Bool
deriving DecidableEq

/-- Observable trace of the Hbone arm of OutboundConnection::proxy:
whether copy_hbone ran against the intercepted client stream, whether the
upgrade-error branch was taken, whether the intercepted stream was closed
(it is dropped whenever proxy returns), and whether proxy returned Ok. -/
structure HboneTrace where
  copied : Bool
  upgradeError : Bool
  streamClosed : Bool
  returnedOk : Bool
deriving DecidableEq

/-- The Hbone arm of OutboundConnection::proxy (outbound.rs lines 85-149):
connect, handshake and send_request failures propagate as errors via `?`;
otherwise hyper::upgrade::on decides: on Ok the bidirectional copy runs, on
Err only the error is logged. In every case the function returns and the
intercepted stream is dropped (closed). -/
def hbone_dispatch (o : HboneOracles) : HboneTrace :=
  if o.connectOk = false then ⟨false, false, true, false⟩
  else if o.handshakeOk = false then ⟨false, false, true, false⟩
  else if o.sendOk = false then ⟨false, false, true, false⟩
  else if o.upgradeOk then ⟨true, false, true, true⟩
  else ⟨false, true, true, true⟩

/-- 2xx success statuses. -/
def is2xx (s : Nat) : Prop := 200 ≤ s ∧ s < 300

instance (s : Nat) : Decidable (is2xx s) := by
  unfold is2xx
  infer_instance

/-! ### Concrete outbound fixtures (used to evaluate the model) -/

/-- A source workload with no client-side waypoint, at IP 1. -/
def swPlain : Workload :=
  { workloadIp := 1, gatewayIp := some ⟨1, 15008⟩, protocol := .Hbone,
    remoteProxy := none, node := "n1", name := "client" }

/-- The same source workload but with a client-side waypoint at IP 5. -/
def swWithWaypoint : Workload := { swPlain with remoteProxy := some 5 }

/-- A destination workload behind a server-side waypoint at IP 8
(scenario S5: the upstream resolved from VIP target ⟨101, 80⟩). -/
def usWaypoint : Upstream :=
  { workload := { workloadIp := 21, gatewayIp := some ⟨21, 15008⟩, protocol := .Tcp,
                  remoteProxy := some 8, node := "", name := "svc" },
    port := 80 }

/-- A known Tcp-protocol destination workload with no waypoint. -/
def usTcp : Upstream :=
  { workload := { workloadIp := 22, gatewayIp := some ⟨22, 80⟩, protocol := .Tcp,
                  remoteProxy := none, node := "n9", name := "db" },
    port := 5432 }

/-- Source lookup returning `swPlain` for IP 1. -/
def fwPlain : Ip → Option Workload := fun i => if i = 1 then some swPlain else none

/-- Source lookup returning `swWithWaypoint` for IP 1. -/
def fwWithWaypoint : Ip → Option Workload :=
  fun i => if i = 1 then some swWithWaypoint else none

/-- Upstream lookup resolving every target to `usWaypoint` via a VIP. -/
def fuWaypoint : SocketAddr → Upstream × Bool := fun _ => (usWaypoint, true)

/-- Upstream lookup resolving every target to `usTcp`, not a VIP. -/
def fuTcp : SocketAddr → Upstream × Bool := fun _ => (usTcp, false)

/-- The request build_request produces for `fwPlain`/`fuWaypoint` on VIP
target ⟨101, 80⟩. -/
def c4req : Request :=
  { protocol := .Hbone, direction := .Inbound, source := swPlain,
    destination := ⟨101, 80⟩, gateway := ⟨8, 15006⟩, requestType := .ToServerWaypoint }

/-- The request build_request produces for `fwPlain`/`fuTcp` on target
⟨22, 5432⟩. -/
def c7req : Request :=
  { protocol := .Tcp, direction := .Outbound, source := swPlain,
    destination := ⟨22, 5432⟩, gateway := ⟨22, 80⟩, requestType := .Direct }

/-- The request build_request produces for `fwWithWaypoint`/`fuWaypoint` on
target ⟨101, 80⟩. -/
def c8req : Request :=
  { protocol := .Hbone, direction := .Outbound, source := swWithWaypoint,
    destination := ⟨101, 80⟩, gateway := ⟨5, 15001⟩, requestType := .ToClientWaypoint }

/-- An overlay dispatch whose CONNECT got a 404 answer, so the upgrade
fails. -/
def oUpgradeFail : HboneOracles :=
  { connectOk := true, handshakeOk := true, sendOk := true,
    responseStatus := 404, upgradeOk := false }

end Outbound

namespace Inbound

/-! ## Inbound data model (src/proxy/inbound.rs)

The inbound file uses the newer state model (crate::state). Only the
pieces `serve_connect` / `handle_inbound` read are embedded; the
DemandProxyState lookups are oracle functions collected in `StateStore`. -/

/-- crate::state::workload::NetworkAddress. -/
structure NetworkAddress where
  network : String
  address : Ip
deriving DecidableEq

/-- crate::rbac::Connection. -/
structure Connection where
  srcIdentity : Option Identity
  src : SocketAddr
  dstNetwork : String
  dst : SocketAddr
deriving DecidableEq

/-- gatewayaddress::Destination: an address on a network or a namespaced
hostname. -/
inductive Destination where
  | address (a : NetworkAddress)
  | hostname (ns : String) (host : String)
deriving DecidableEq

/-- crate::state::workload::GatewayAddress. -/
structure GatewayAddress where
  destination : Destination
  hboneMtlsPort : Nat
  hboneSingleTlsPort : Option Nat
deriving DecidableEq

/-- Gateway protocol of a native tunnel; the code only distinguishes PROXY
from everything else. -/
inductive GatewayProtocol where
  | PROXY
  | other
deriving DecidableEq

/-- crate::state::workload::NativeTunnel as destructured in serve_connect. -/
structure NativeTunnel where
  protocol : GatewayProtocol
  port : Option Nat
deriving DecidableEq

/-- The fields of crate::state::workload::Workload that serve_connect and
its helpers read. `identity()` is derived from the trust domain, namespace
and service account, as in the source. -/
structure Workload where
  uid : String
  trustDomain : String
  ns : String
  serviceAccount : String
  waypoint : Option GatewayAddress
  networkGateway : Option GatewayAddress
  nativeTunnel : Option NativeTunnel
deriving DecidableEq

/-- Workload::identity(). -/
def Workload.identity (w : Workload) : Identity :=
  ⟨w.trustDomain, w.ns, w.serviceAccount⟩

/-- A service endpoint; check_gateway_address only reads the workload UID. -/
structure Endpoint where
  workloadUid : String
deriving DecidableEq

/-- crate::state::service::Service, restricted to the endpoints that
check_gateway_address iterates. -/
structure Service where
  endpoints : List Endpoint
deriving DecidableEq

/-- address::Address: a workload or a service. -/
inductive Address where
  | workload (w : Workload)
  | service (s : Service)

/-- The DemandProxyState lookups used by inbound, as oracle functions.
`find_waypoint_for_address` records only `is_some()` of the source call,
which is all serve_connect consumes. -/
structure StateStore where
  fetch_workload_services : NetworkAddress → Option (Workload × List Service)
  find_waypoint_for_address : NetworkAddress → NetworkAddress → Bool
  fetch_destination : Destination → Option Address
  fetch_workload_by_uid : String → Option Workload
  assert_rbac : Connection → Bool

/-- Inbound::check_sandwich (inbound.rs lines 501-517): if the TCP dst IP
differs from the CONNECT authority IP, ask the store whether the TCP dst is
a registered waypoint for the authority's address. -/
def check_sandwich (st : StateStore) (conn : Connection) (hbone : SocketAddr) : Bool :=
  if conn.dst.ip = hbone.ip then false
  else
    st.find_waypoint_for_address ⟨conn.dstNetwork, hbone.ip⟩ ⟨conn.dstNetwork, conn.dst.ip⟩

/-- Inbound::check_gateway_address (inbound.rs lines 535-562): compare the
peer identity with the referenced gateway workload's identity, or with any
endpoint workload's identity when the gateway is a service by hostname. -/
def check_gateway_address (st : StateStore) (conn : Connection)
    (gatewayAddress : Option GatewayAddress) : Bool :=
  match gatewayAddress with
  | none => false
  | some g =>
    match st.fetch_destination g.destination with
    | some (.workload wl) => some wl.identity == conn.srcIdentity
    | some (.service svc) =>
      svc.endpoints.any fun ep =>
        ((st.fetch_workload_by_uid ep.workloadUid).map Workload.identity) == conn.srcIdentity
    | none => false

/-- Inbound::check_waypoint (inbound.rs lines 519-525). -/
def check_waypoint (st : StateStore) (upstream : Workload) (conn : Connection) : Bool :=
  check_gateway_address st conn upstream.waypoint

/-- Inbound::check_gateway (inbound.rs lines 527-533). -/
def check_gateway (st : StateStore) (upstream : Workload) (conn : Connection) : Bool :=
  check_gateway_address st conn upstream.networkGateway

/-- HTTP method: serve_connect only distinguishes CONNECT. -/
inductive Method where
  | CONNECT
  | other
deriving DecidableEq

/-- The pieces of the hyper Request that serve_connect reads: the method,
the authority parse result (`uri.to_string().parse::<SocketAddr>()`), and
the `Forwarded` for= address (`get_original_src_from_fwded`). -/
structure Req where
  method : Method
  uriAuthority : Option SocketAddr
  fwdFor : Option Ip
deriving DecidableEq

/-- Calls made on the ConnectionManager along an execution. -/
inductive ManagerEvent where
  | register (c : Connection)
  | release (c : Connection)
deriving DecidableEq

/-- The InboundConnect variant dispatched to handle_inbound. -/
inductive ConnectKind where
  | directPath
  | hbone
  | proxyProtocol
deriving DecidableEq

/-- How the copy phase of the spawned task ended. -/
inductive CopyOutcome where
  | completed (err : Bool)
  | interrupted
deriving DecidableEq

/-- Outcomes of the external effects in handle_inbound, as oracles:
`dialOk` is success of freebind_connect plus set_nodelay; `trackSome` is
whether ConnectionManager::track returned Some; `upgradeOk` is success of
hyper::upgrade::on; `writeErr` an error from write_proxy_protocol;
`copyErr` an error from the byte copy; `closeFired` whether the tracked
close-signal fires during the copy. -/
structure TaskOracles where
  dialOk : Bool
  trackSome : Bool
  upgradeOk : Bool
  writeErr : Bool
  copyErr : Bool
  closeFired : Bool
deriving DecidableEq

/-- The copy phase of the spawned task in handle_inbound (inbound.rs lines
219-297), per InboundConnect variant. DirectPath and Hbone run the copy
inside `tokio::select!` with `close.signaled()`, so a fired close-signal
interrupts them; ProxyProtocol runs write_proxy_protocol and the copy with
no select on the close-signal. `none` means no copy ran (failed upgrade or
proxy-protocol write). -/
def copy_phase (kind : ConnectKind) (o : TaskOracles) : Option CopyOutcome :=
  match kind with
  | .directPath =>
    some (if o.closeFired then .interrupted else .completed o.copyErr)
  | .hbone =>
    if o.upgradeOk then
      some (if o.closeFired then .interrupted else .completed o.copyErr)
    else none
  | .proxyProtocol =>
    if o.upgradeOk then
      if o.writeErr then none else some (.completed o.copyErr)
    else none

/-- Inbound::handle_inbound (inbound.rs lines 177-308): dial the upstream
(an Err return means the dial or set_nodelay failed and no task is
spawned); on success spawn the copy task, which first calls track — a None
result returns without any further manager call — and otherwise runs the
copy phase and then calls release (line 298) on every path through the
match. Returns (dial succeeded, manager events of the task, copy outcome). -/
def handle_inbound (kind : ConnectKind) (o : TaskOracles) (conn : Connection) :
    Bool × List ManagerEvent × Option CopyOutcome :=
  if o.dialOk then
    if o.trackSome then (true, [.release conn], copy_phase kind o)
    else (true, [], none)
  else (false, [], none)

/-- What serve_connect dispatched to handle_inbound. -/
structure DispatchInfo where
  kind : ConnectKind
  target : SocketAddr
  origSrc : Option Ip
  copy : Option CopyOutcome
deriving DecidableEq

/-- The observable result of serve_connect: the HTTP status of the CONNECT
response, the ConnectionManager calls made (by serve_connect and by the
spawned copy task), whether assert_rbac was consulted, and the dispatch, if
any. -/
structure ServeResult where
  status : Nat
  events : List ManagerEvent
  rbacConsulted : Bool
  dispatched : Option DispatchInfo
deriving DecidableEq

/-- The connection after the destination rewrite of inbound.rs lines
367-372: for a sandwich flow the dst keeps the TCP dst IP and takes the
authority's port; otherwise the dst becomes the authority address. -/
def effective_conn (st : StateStore) (conn0 : Connection) (hbone : SocketAddr) : Connection :=
  if check_sandwich st conn0 hbone then
    { conn0 with dst := ⟨conn0.dst.ip, hbone.port⟩ }
  else
    { conn0 with dst := hbone }

/-- The native-tunnel selection of inbound.rs lines 465-474: a native
tunnel of protocol PROXY selects the ProxyProtocol variant with its port
override; everything else is a plain Hbone dispatch. -/
def native_kind (upstream : Workload) : ConnectKind × Option Nat :=
  match upstream.nativeTunnel with
  | some nt =>
    match nt.protocol with
    | .PROXY => (.proxyProtocol, nt.port)
    | .other => (.hbone, none)
  | none => (.hbone, none)

/-- The dial target of inbound.rs line 479: conn.dst with the port replaced
by the native-tunnel port override, when present. -/
def dispatch_target (upstream : Workload) (conn : Connection) : SocketAddr :=
  match (native_kind upstream).2 with
  | some p => ⟨conn.dst.ip, p⟩
  | none => conn.dst

/-- Source-IP attribution of inbound.rs lines 418-426: trust the Forwarded
for= address only when the peer is the destination's waypoint. -/
def source_ip (fromWaypoint : Bool) (req : Req) (conn : Connection) : Ip :=
  if fromWaypoint then req.fwdFor.getD conn.src.ip else conn.src.ip

/-- The dispatch tail of serve_connect (inbound.rs lines 418-497): source
attribution, native-tunnel selection, handle_inbound, and the 200/503
mapping of its result. The register call of line 393 heads the events. -/
def dispatch_result (st : StateStore) (conn : Connection) (sandwich : Bool)
    (upstream : Workload) (enableOrigSrc : Bool) (req : Req) (o : TaskOracles) :
    ServeResult :=
  { status := if (handle_inbound (native_kind upstream).1 o conn).1 then 200 else 503
    events := .register conn :: (handle_inbound (native_kind upstream).1 o conn).2.1
    rbacConsulted := !(check_waypoint st upstream conn || sandwich)
    dispatched := some
      { kind := (native_kind upstream).1
        target := dispatch_target upstream conn
        origSrc :=
          if enableOrigSrc then
            some (source_ip (check_waypoint st upstream conn) req conn)
          else none
        copy := (handle_inbound (native_kind upstream).1 o conn).2.2 } }

/-- The tail of serve_connect after a successful destination lookup
(inbound.rs lines 388-497): register (line 393, heading the events of every
branch below), RBAC unless the peer is the destination's waypoint or the
flow is a sandwich flow (deny: 401 and release), the waypoint-bypass check
(401 and release), then the dispatch. -/
def post_fetch (st : StateStore) (conn : Connection) (sandwich : Bool)
    (upstream : Workload) (enableOrigSrc : Bool) (req : Req) (o : TaskOracles) :
    ServeResult :=
  if (check_waypoint st upstream conn || sandwich) = false ∧
      st.assert_rbac conn = false then
    { status := 401, events := [.register conn, .release conn],
      rbacConsulted := true, dispatched := none }
  else if upstream.waypoint.isSome ∧ check_waypoint st upstream conn = false then
    { status := 401, events := [.register conn, .release conn],
      rbacConsulted := !(check_waypoint st upstream conn || sandwich),
      dispatched := none }
  else
    dispatch_result st conn sandwich upstream enableOrigSrc req o

/-- Inbound::serve_connect (inbound.rs lines 324-498): 404 for non-CONNECT,
400 for an unparsable authority, sandwich detection, 400 on IP mismatch
without a waypoint relation, destination rewrite, 404 on unknown
destination, then `post_fetch`. -/
def serve_connect (st : StateStore) (conn0 : Connection) (enableOrigSrc : Bool)
    (req : Req) (o : TaskOracles) : ServeResult :=
  match req.method with
  | .other => { status := 404, events := [], rbacConsulted := false, dispatched := none }
  | .CONNECT =>
    match req.uriAuthority with
    | none => { status := 400, events := [], rbacConsulted := false, dispatched := none }
    | some hbone =>
      if check_sandwich st conn0 hbone = false ∧ hbone.ip ≠ conn0.dst.ip then
        { status := 400, events := [], rbacConsulted := false, dispatched := none }
      else
        match st.fetch_workload_services
            ⟨(effective_conn st conn0 hbone).dstNetwork,
             (effective_conn st conn0 hbone).dst.ip⟩ with
        | none => { status := 404, events := [], rbacConsulted := false, dispatched := none }
        | some (upstream, _svcs) =>
          post_fetch st (effective_conn st conn0 hbone)
            (check_sandwich st conn0 hbone) upstream enableOrigSrc req o

/-! ### Concrete inbound fixtures (used to evaluate the model)

A proxy on network "n" serving the local workload at IP 5; the peer is at
IP 9 and opens the overlay to ⟨5, 15008⟩. -/

/-- A destination workload with no waypoint, gateway or native tunnel. -/
def wPlain : Workload :=
  { uid := "w1", trustDomain := "td", ns := "app", serviceAccount := "web",
    waypoint := none, networkGateway := none, nativeTunnel := none }

/-- A destination workload declaring a waypoint at IP 99. -/
def wWaypointed : Workload :=
  { wPlain with uid := "w2", waypoint := some ⟨.address ⟨"n", 99⟩, 15008, none⟩ }

/-- A destination workload declaring a PROXY native tunnel on port 7777. -/
def wProxyTunnel : Workload :=
  { wPlain with uid := "w3", nativeTunnel := some ⟨.PROXY, some 7777⟩ }

/-- Store: workload `wPlain` at IP 5, no waypoint relations, RBAC allows. -/
def stPlain : StateStore :=
  { fetch_workload_services := fun a => if a.address = 5 then some (wPlain, []) else none
    find_waypoint_for_address := fun _ _ => false
    fetch_destination := fun _ => none
    fetch_workload_by_uid := fun _ => none
    assert_rbac := fun _ => true }

/-- Same as `stPlain` but RBAC denies every connection. -/
def stDeny : StateStore := { stPlain with assert_rbac := fun _ => false }

/-- A store that knows no workloads. -/
def stEmpty : StateStore := { stPlain with fetch_workload_services := fun _ => none }

/-- Store for the sandwich counterexample: the workload at IP 5 (the TCP
destination, a waypoint itself) declares a waypoint of its own, IP 5 is the
registered waypoint for IP 7, and nothing resolves the waypoint reference,
so no peer ever counts as from-waypoint. -/
def stSand : StateStore :=
  { fetch_workload_services := fun a => if a.address = 5 then some (wWaypointed, []) else none
    find_waypoint_for_address := fun t w => decide (t.address = 7) && decide (w.address = 5)
    fetch_destination := fun _ => none
    fetch_workload_by_uid := fun _ => none
    assert_rbac := fun _ => true }

/-- Same as `stPlain` but the workload at IP 5 wants proxy protocol. -/
def stProxy : StateStore :=
  { stPlain with
    fetch_workload_services := fun a => if a.address = 5 then some (wProxyTunnel, []) else none }

/-- Store for the plain waypoint-bypass case (scenario S3): the workload at
IP 5 declares a waypoint, no sandwich relations, and the waypoint reference
does not resolve, so the peer is not from the waypoint. -/
def stWay : StateStore := { stSand with find_waypoint_for_address := fun _ _ => false }

/-- The accepted TLS connection: peer ⟨9, 40000⟩, TCP dst ⟨5, 15008⟩. -/
def connIn : Connection :=
  { srcIdentity := none, src := ⟨9, 40000⟩, dstNetwork := "n", dst := ⟨5, 15008⟩ }

/-- `connIn` after the destination rewrite for authority ⟨5, 8080⟩. -/
def connEff : Connection := { connIn with dst := ⟨5, 8080⟩ }

/-- `connIn` after the destination rewrite for the sandwich authority
⟨7, 9090⟩. -/
def connSand : Connection := { connIn with dst := ⟨5, 9090⟩ }

/-- A CONNECT request for authority ⟨5, 8080⟩. -/
def reqConnect : Req := { method := .CONNECT, uriAuthority := some ⟨5, 8080⟩, fwdFor := none }

/-- A non-CONNECT request. -/
def reqOther : Req := { reqConnect with method := .other }

/-- A CONNECT request whose authority does not parse. -/
def reqBadAuth : Req := { reqConnect with uriAuthority := none }

/-- A CONNECT request for authority ⟨6, 80⟩, mismatching the TCP dst IP 5. -/
def reqMismatch : Req := { reqConnect with uriAuthority := some ⟨6, 80⟩ }

/-- A CONNECT request for the sandwich authority ⟨7, 9090⟩. -/
def reqSandwich : Req := { reqConnect with uriAuthority := some ⟨7, 9090⟩ }

/-- All external effects succeed and no close-signal fires. -/
def oOk : TaskOracles :=
  { dialOk := true, trackSome := true, upgradeOk := true,
    writeErr := false, copyErr := false, closeFired := false }

/-- The upstream dial fails. -/
def oDialFail : TaskOracles := { oOk with dialOk := false }

/-- The close-signal fires during the copy. -/
def oClose : TaskOracles := { oOk with closeFired := true }

end Inbound

/-! ## Helper lemmas -/

namespace Outbound

theorem hbone_dispatch_streamClosed (o : HboneOracles) :
    (hbone_dispatch o).streamClosed = true := by
  rcases o with ⟨c, h, s, st, u⟩
  unfold hbone_dispatch
  cases c <;> cases h <;> cases s <;> cases u <;> simp

theorem hbone_dispatch_copied (o : HboneOracles) :
    (hbone_dispatch o).copied = true → o.upgradeOk = true := by
  rcases o with ⟨c, h, s, st, u⟩
  unfold hbone_dispatch
  cases c <;> cases h <;> cases s <;> cases u <;> simp

theorem build_request_core_tcp (cfg : Cfg) (sw : Workload) (us : Upstream)
    (vip : Bool) (t : SocketAddr) (gw : SocketAddr) :
    ((build_request_core cfg sw us vip t gw).protocol = .Tcp →
      (build_request_core cfg sw us vip t gw).requestType = .Passthrough ∨
      (build_request_core cfg sw us vip t gw).requestType = .Direct) ∧
    ((build_request_core cfg sw us vip t gw).requestType = .DirectLocal →
      (build_request_core cfg sw us vip t gw).gateway = ⟨loopbackIp, 15008⟩) := by
  unfold build_request_core
  cases hsp : sw.remoteProxy with
  | some rp => simp
  | none =>
    cases hup : us.workload.remoteProxy with
    | some rp => cases vip <;> simp
    | none =>
      simp only []
      split_ifs with hcond hname
      · constructor
        · intro hp
          rw [hcond.2.2] at hp
          exact absurd hp (by simp)
        · intro _
          rfl
      · constructor
        · intro _
          exact Or.inl rfl
        · intro h
          simp at h
      · constructor
        · intro _
          exact Or.inr rfl
        · intro h
          simp at h

end Outbound

namespace Inbound

theorem effective_conn_dstNetwork (st : StateStore) (conn0 : Connection)
    (hbone : SocketAddr) :
    (effective_conn st conn0 hbone).dstNetwork = conn0.dstNetwork := by
  unfold effective_conn
  split <;> rfl

theorem handle_inbound_fst (k : ConnectKind) (o : TaskOracles) (conn : Connection) :
    (handle_inbound k o conn).1 = o.dialOk := by
  unfold handle_inbound
  cases hd : o.dialOk <;> cases ht : o.trackSome <;> simp [hd, ht]

theorem serve_connect_not_connect (st : StateStore) (conn0 : Connection) (e : Bool)
    (req : Req) (o : TaskOracles) (h : req.method = .other) :
    serve_connect st conn0 e req o = ⟨404, [], false, none⟩ := by
  unfold serve_connect
  rw [h]

theorem serve_connect_no_authority (st : StateStore) (conn0 : Connection) (e : Bool)
    (req : Req) (o : TaskOracles) (hm : req.method = .CONNECT)
    (ha : req.uriAuthority = none) :
    serve_connect st conn0 e req o = ⟨400, [], false, none⟩ := by
  unfold serve_connect
  rw [hm, ha]

theorem serve_connect_ip_mismatch (st : StateStore) (conn0 : Connection) (e : Bool)
    (req : Req) (o : TaskOracles) (hbone : SocketAddr)
    (hm : req.method = .CONNECT) (ha : req.uriAuthority = some hbone)
    (hs : check_sandwich st conn0 hbone = false) (hip : hbone.ip ≠ conn0.dst.ip) :
    serve_connect st conn0 e req o = ⟨400, [], false, none⟩ := by
  simp only [serve_connect, hm, ha]
  rw [if_pos ⟨hs, hip⟩]

theorem not_mismatch (st : StateStore) (conn0 : Connection) (hbone : SocketAddr)
    (hip : check_sandwich st conn0 hbone = true ∨ hbone.ip = conn0.dst.ip) :
    ¬(check_sandwich st conn0 hbone = false ∧ hbone.ip ≠ conn0.dst.ip) := by
  rintro ⟨h1, h2⟩
  rcases hip with h | h
  · rw [h] at h1
    simp at h1
  · exact h2 h

theorem serve_connect_unknown (st : StateStore) (conn0 : Connection) (e : Bool)
    (req : Req) (o : TaskOracles) (hbone : SocketAddr)
    (hm : req.method = .CONNECT) (ha : req.uriAuthority = some hbone)
    (hip : check_sandwich st conn0 hbone = true ∨ hbone.ip = conn0.dst.ip)
    (hf : st.fetch_workload_services
      ⟨conn0.dstNetwork, (effective_conn st conn0 hbone).dst.ip⟩ = none) :
    serve_connect st conn0 e req o = ⟨404, [], false, none⟩ := by
  simp only [serve_connect, hm, ha, effective_conn_dstNetwork, hf]
  rw [if_neg (not_mismatch st conn0 hbone hip)]

theorem serve_connect_fetch_some (st : StateStore) (conn0 : Connection) (e : Bool)
    (req : Req) (o : TaskOracles) (hbone : SocketAddr) (upstream : Workload)
    (svcs : List Service)
    (hm : req.method = .CONNECT) (ha : req.uriAuthority = some hbone)
    (hip : check_sandwich st conn0 hbone = true ∨ hbone.ip = conn0.dst.ip)
    (hf : st.fetch_workload_services
      ⟨conn0.dstNetwork, (effective_conn st conn0 hbone).dst.ip⟩ = some (upstream, svcs)) :
    serve_connect st conn0 e req o =
      post_fetch st (effective_conn st conn0 hbone) (check_sandwich st conn0 hbone)
        upstream e req o := by
  simp only [serve_connect, hm, ha, effective_conn_dstNetwork, hf]
  rw [if_neg (not_mismatch st conn0 hbone hip)]

theorem post_fetch_deny (st : StateStore) (conn : Connection) (sandwich : Bool)
    (upstream : Workload) (e : Bool) (req : Req) (o : TaskOracles)
    (h1 : (check_waypoint st upstream conn || sandwich) = false)
    (h2 : st.assert_rbac conn = false) :
    post_fetch st conn sandwich upstream e req o =
      ⟨401, [.register conn, .release conn], true, none⟩ := by
  unfold post_fetch
  rw [if_pos ⟨h1, h2⟩]

theorem post_fetch_bypass (st : StateStore) (conn : Connection) (sandwich : Bool)
    (upstream : Workload) (e : Bool) (req : Req) (o : TaskOracles)
    (hna : ¬((check_waypoint st upstream conn || sandwich) = false ∧
      st.assert_rbac conn = false))
    (hw : upstream.waypoint.isSome = true)
    (hfw : check_waypoint st upstream conn = false) :
    post_fetch st conn sandwich upstream e req o =
      ⟨401, [.register conn, .release conn],
       !(check_waypoint st upstream conn || sandwich), none⟩ := by
  unfold post_fetch
  rw [if_neg hna, if_pos ⟨hw, hfw⟩]

theorem post_fetch_dispatch (st : StateStore) (conn : Connection) (sandwich : Bool)
    (upstream : Workload) (e : Bool) (req : Req) (o : TaskOracles)
    (hna : ¬((check_waypoint st upstream conn || sandwich) = false ∧
      st.assert_rbac conn = false))
    (hnb : ¬(upstream.waypoint.isSome = true ∧
      check_waypoint st upstream conn = false)) :
    post_fetch st conn sandwich upstream e req o =
      dispatch_result st conn sandwich upstream e req o := by
  unfold post_fetch
  rw [if_neg hna, if_neg hnb]

end Inbound

/-! ## Claim theorems: outbound -/

namespace Outbound

/-- C4, counterexample to the claim as stated: for a destination behind a
server-side waypoint at IP 8 reached through VIP ⟨101, 80⟩ (scenario S5),
build_request does classify the request ToServerWaypoint over Hbone with
the VIP preserved as destination, but the gateway is ⟨8, 15006⟩, not the
overlay port 15008 the claim names. -/
theorem c4_counterexample :
    build_request ⟨none⟩ fwPlain fuWaypoint 1 ⟨101, 80⟩ = some c4req ∧
    c4req.requestType = .ToServerWaypoint ∧
    c4req.protocol = .Hbone ∧
    c4req.destination = ⟨101, 80⟩ ∧
    c4req.gateway = ⟨8, 15006⟩ ∧
    c4req.gateway ≠ ⟨8, 15008⟩ := by decide

/-- C4 (amended): when the source workload has no waypoint and the
destination workload has one at IP w, build_request sets ToServerWaypoint,
protocol Hbone, gateway ⟨w, 15006⟩ (the inbound-plaintext port, not the
overlay port 15008), and destination original_dst when the target was a
VIP, else (upstream.ip, upstream.port). -/
theorem c4_amended_theorem (cfg : Cfg) (fw : Ip → Option Workload)
    (fu : SocketAddr → Upstream × Bool) (d : Ip) (t : SocketAddr)
    (sw : Workload) (w : Ip) (gw : SocketAddr)
    (hsrc : fw d = some sw) (hnosrc : sw.remoteProxy = none)
    (hdst : (fu t).1.workload.remoteProxy = some w)
    (hgw : (fu t).1.workload.gatewayIp = some gw) :
    build_request cfg fw fu d t = some
      { protocol := .Hbone, direction := .Inbound, source := sw,
        destination :=
          if (fu t).2 then t else ⟨(fu t).1.workload.workloadIp, (fu t).1.port⟩,
        gateway := ⟨w, 15006⟩, requestType := .ToServerWaypoint } := by
  unfold build_request
  rw [hsrc, hgw]
  simp only []
  unfold build_request_core
  simp only [hnosrc, hdst]
  cases hv : (fu t).2 <;> simp [hv]

/-- C4 witness: the amended claim at scenario S5's concrete input. -/
theorem c4_witness :
    build_request ⟨none⟩ fwPlain fuWaypoint 1 ⟨101, 80⟩ = some
      { protocol := .Hbone, direction := .Inbound, source := swPlain,
        destination :=
          if (fuWaypoint ⟨101, 80⟩).2 then ⟨101, 80⟩
          else ⟨(fuWaypoint ⟨101, 80⟩).1.workload.workloadIp, (fuWaypoint ⟨101, 80⟩).1.port⟩,
        gateway := ⟨8, 15006⟩, requestType := .ToServerWaypoint } :=
  c4_amended_theorem ⟨none⟩ fwPlain fuWaypoint 1 ⟨101, 80⟩ swPlain 8 ⟨21, 15008⟩
    rfl rfl rfl rfl

/-- C7, counterexample to the claim as stated: a known Tcp-protocol
upstream with no waypoints yields a request with protocol tcp and
request_type Direct, refuting `protocol == tcp implies request_type ==
Passthrough`. -/
theorem c7_counterexample :
    build_request ⟨some "n1"⟩ fwPlain fuTcp 1 ⟨22, 5432⟩ = some c7req ∧
    c7req.protocol = .Tcp ∧
    c7req.requestType ≠ .Passthrough ∧
    c7req.requestType = .Direct := by decide

/-- C7 (amended): every Request R built by build_request has exactly one of
the five request types; R.protocol == tcp implies R.request_type is
Passthrough or Direct; and R.request_type == DirectLocal implies R.gateway
is the loopback overlay address 127.0.0.1:15008. -/
theorem c7_invariants (cfg : Cfg) (fw : Ip → Option Workload)
    (fu : SocketAddr → Upstream × Bool) (d : Ip) (t : SocketAddr) (r : Request)
    (h : build_request cfg fw fu d t = some r) :
    (r.requestType = .ToClientWaypoint ∨ r.requestType = .ToServerWaypoint ∨
     r.requestType = .Direct ∨ r.requestType = .DirectLocal ∨
     r.requestType = .Passthrough) ∧
    (r.protocol = .Tcp → r.requestType = .Passthrough ∨ r.requestType = .Direct) ∧
    (r.requestType = .DirectLocal → r.gateway = ⟨loopbackIp, 15008⟩) := by
  refine ⟨by cases h5 : r.requestType <;> simp [h5], ?_⟩
  unfold build_request at h
  cases hfw : fw d with
  | none =>
    rw [hfw] at h
    exact absurd h (by simp)
  | some sw =>
    rw [hfw] at h
    cases hgw : (fu t).1.workload.gatewayIp with
    | none =>
      rw [hgw] at h
      exact absurd h (by simp)
    | some gw =>
      rw [hgw] at h
      simp only [Option.some_inj] at h
      rw [← h]
      exact build_request_core_tcp cfg sw (fu t).1 (fu t).2 t gw

/-- C7 witness: the amended invariants at the Tcp/Direct concrete input. -/
theorem c7_witness :
    (c7req.requestType = .ToClientWaypoint ∨ c7req.requestType = .ToServerWaypoint ∨
     c7req.requestType = .Direct ∨ c7req.requestType = .DirectLocal ∨
     c7req.requestType = .Passthrough) ∧
    (c7req.protocol = .Tcp → c7req.requestType = .Passthrough ∨ c7req.requestType = .Direct) ∧
    (c7req.requestType = .DirectLocal → c7req.gateway = ⟨loopbackIp, 15008⟩) :=
  c7_invariants ⟨some "n1"⟩ fwPlain fuTcp 1 ⟨22, 5432⟩ c7req (by decide)

/-- C8, counterexample to the claim as stated: with a client-side waypoint
at IP 5 (and the destination also waypointed, showing the source-side rule
wins), build_request yields ToClientWaypoint over Hbone with destination
original_dst, but the gateway is ⟨5, 15001⟩, not the overlay port 15008
implied by `(source.waypoint, overlay-port)`. -/
theorem c8_counterexample :
    build_request ⟨none⟩ fwWithWaypoint fuWaypoint 1 ⟨101, 80⟩ = some c8req ∧
    c8req.requestType = .ToClientWaypoint ∧
    c8req.protocol = .Hbone ∧
    c8req.destination = ⟨101, 80⟩ ∧
    c8req.gateway = ⟨5, 15001⟩ ∧
    c8req.gateway ≠ ⟨5, 15008⟩ := by decide

/-- C8 (amended): when the source workload has a client-side waypoint at
IP w, build_request classifies the request ToClientWaypoint regardless of
any destination-side waypoint (no hypothesis constrains the upstream's
waypoint), with protocol Hbone, gateway ⟨w, 15001⟩ (the outbound
interception port, not the overlay port), and destination original_dst
with no VIP resolution. -/
theorem c8_amended_theorem (cfg : Cfg) (fw : Ip → Option Workload)
    (fu : SocketAddr → Upstream × Bool) (d : Ip) (t : SocketAddr)
    (sw : Workload) (w : Ip) (gw : SocketAddr)
    (hsrc : fw d = some sw) (hwp : sw.remoteProxy = some w)
    (hgw : (fu t).1.workload.gatewayIp = some gw) :
    build_request cfg fw fu d t = some
      { protocol := .Hbone, direction := .Outbound, source := sw,
        destination := t, gateway := ⟨w, 15001⟩,
        requestType := .ToClientWaypoint } := by
  unfold build_request
  rw [hsrc, hgw]
  simp only []
  unfold build_request_core
  simp only [hwp]

/-- C8 witness: the amended claim at the concrete input where both sides
have waypoints. -/
theorem c8_witness :
    build_request ⟨none⟩ fwWithWaypoint fuWaypoint 1 ⟨101, 80⟩ = some
      { protocol := .Hbone, direction := .Outbound, source := swWithWaypoint,
        destination := ⟨101, 80⟩, gateway := ⟨5, 15001⟩,
        requestType := .ToClientWaypoint } :=
  c8_amended_theorem ⟨none⟩ fwWithWaypoint fuWaypoint 1 ⟨101, 80⟩ swWithWaypoint 5
    ⟨21, 15008⟩ rfl rfl rfl

/-- C9: in the overlay dispatch of OutboundConnection::proxy, assuming the
HTTP library upgrades a CONNECT response only when it is 2xx (hyper's
behavior, which the code relies on instead of checking the status itself),
the bidirectional copy to the intercepted stream runs only after a 2xx
response, and on a non-2xx response nothing is copied and the intercepted
stream is still closed. -/
theorem c9_theorem (o : HboneOracles)
    (hupg : ¬ is2xx o.responseStatus → o.upgradeOk = false) :
    ((hbone_dispatch o).copied = true → is2xx o.responseStatus) ∧
    (¬ is2xx o.responseStatus →
      (hbone_dispatch o).copied = false ∧ (hbone_dispatch o).streamClosed = true) := by
  constructor
  · intro hc
    by_contra h2
    have hu := hupg h2
    have hup := hbone_dispatch_copied o hc
    rw [hu] at hup
    exact absurd hup (by simp)
  · intro h2
    refine ⟨?_, hbone_dispatch_streamClosed o⟩
    have hu := hupg h2
    cases hcop : (hbone_dispatch o).copied with
    | false => rfl
    | true =>
      have hup := hbone_dispatch_copied o hcop
      rw [hu] at hup
      exact absurd hup (by simp)

/-- C9 witness: a 404 CONNECT answer leads to no copy and a closed
intercepted stream. -/
theorem c9_witness :
    (hbone_dispatch oUpgradeFail).copied = false ∧
    (hbone_dispatch oUpgradeFail).streamClosed = true :=
  (c9_theorem oUpgradeFail (fun _ => rfl)).2 (by decide)

/-- C10: build_request is not total. When the source-workload lookup fails
it produces no Request (the code panics); likewise when the upstream's
gateway_ip is absent; and when the source lookup succeeds and gateway_ip is
present, a Request is always produced. -/
theorem c10_theorem :
    (∀ (cfg : Cfg) (fu : SocketAddr → Upstream × Bool) (d : Ip) (t : SocketAddr),
      build_request cfg (fun _ => none) fu d t = none) ∧
    (∀ (cfg : Cfg) (fw : Ip → Option Workload) (fu : SocketAddr → Upstream × Bool)
      (d : Ip) (t : SocketAddr) (sw : Workload),
      fw d = some sw → (fu t).1.workload.gatewayIp = none →
      build_request cfg fw fu d t = none) ∧
    (∀ (cfg : Cfg) (fw : Ip → Option Workload) (fu : SocketAddr → Upstream × Bool)
      (d : Ip) (t : SocketAddr) (sw : Workload) (gw : SocketAddr),
      fw d = some sw → (fu t).1.workload.gatewayIp = some gw →
      (build_request cfg fw fu d t).isSome = true) := by
  refine ⟨fun cfg fu d t => rfl, ?_, ?_⟩
  · intro cfg fw fu d t sw hs hg
    unfold build_request
    rw [hs, hg]
  · intro cfg fw fu d t sw gw hs hg
    unfold build_request
    rw [hs, hg]
    rfl

/-- C10 witness: the failure branch at a store that knows no source
workload, and totality under the preconditions at a concrete input. -/
theorem c10_witness :
    build_request ⟨none⟩ (fun _ => none) fuTcp 1 ⟨22, 5432⟩ = none ∧
    (build_request ⟨none⟩ fwPlain fuTcp 1 ⟨22, 5432⟩).isSome = true :=
  ⟨c10_theorem.1 ⟨none⟩ fuTcp 1 ⟨22, 5432⟩,
   c10_theorem.2.2 ⟨none⟩ fwPlain fuTcp 1 ⟨22, 5432⟩ swPlain ⟨22, 80⟩ rfl rfl⟩

end Outbound

/-! ## Claim theorems: inbound -/

namespace Inbound

/-- C1, counterexample to the claim as stated: a sandwich flow can be
rejected by the waypoint-bypass check. The TCP destination (IP 5) is the
registered waypoint for the authority's IP 7, so the flow is a sandwich
flow and RBAC is skipped (rbacConsulted is false), yet because the
waypoint workload itself declares a waypoint it is not arriving from, the
check `has_waypoint && !from_waypoint` fires and the flow gets 401. -/
theorem c1_counterexample :
    check_sandwich stSand connIn ⟨7, 9090⟩ = true ∧
    (serve_connect stSand connIn false reqSandwich oOk).rbacConsulted = false ∧
    (serve_connect stSand connIn false reqSandwich oOk).status = 401 ∧
    (serve_connect stSand connIn false reqSandwich oOk).events =
      [.register connSand, .release connSand] := by decide

/-- C1 (amended): for every inbound CONNECT that reaches admission, if the
destination workload declares a waypoint and the flow is not from that
waypoint's identity, serve_connect answers 401 and releases the
registration — whether or not the flow is a sandwich flow (a sandwich flow
skips RBAC but not the waypoint-bypass check). -/
theorem c1_amended_theorem (st : StateStore) (conn0 : Connection) (e : Bool)
    (req : Req) (o : TaskOracles) (hbone : SocketAddr) (upstream : Workload)
    (svcs : List Service)
    (hm : req.method = .CONNECT) (ha : req.uriAuthority = some hbone)
    (hip : check_sandwich st conn0 hbone = true ∨ hbone.ip = conn0.dst.ip)
    (hf : st.fetch_workload_services
      ⟨conn0.dstNetwork, (effective_conn st conn0 hbone).dst.ip⟩ = some (upstream, svcs))
    (hwp : upstream.waypoint.isSome = true)
    (hfw : check_waypoint st upstream (effective_conn st conn0 hbone) = false) :
    (serve_connect st conn0 e req o).status = 401 ∧
    (serve_connect st conn0 e req o).events =
      [.register (effective_conn st conn0 hbone),
       .release (effective_conn st conn0 hbone)] := by
  rw [serve_connect_fetch_some st conn0 e req o hbone upstream svcs hm ha hip hf]
  by_cases hr : ((check_waypoint st upstream (effective_conn st conn0 hbone) ||
      check_sandwich st conn0 hbone) = false ∧
      st.assert_rbac (effective_conn st conn0 hbone) = false)
  · rw [post_fetch_deny st (effective_conn st conn0 hbone) (check_sandwich st conn0 hbone)
      upstream e req o hr.1 hr.2]
    exact ⟨rfl, rfl⟩
  · rw [post_fetch_bypass st (effective_conn st conn0 hbone) (check_sandwich st conn0 hbone)
      upstream e req o hr hwp hfw]
    exact ⟨rfl, rfl⟩

/-- C1 witness: scenario S3 — the destination declares a waypoint, the peer
is not it, no sandwich: 401 and release. -/
theorem c1_witness :
    (serve_connect stWay connIn false reqConnect oOk).status = 401 ∧
    (serve_connect stWay connIn false reqConnect oOk).events =
      [.register (effective_conn stWay connIn ⟨5, 8080⟩),
       .release (effective_conn stWay connIn ⟨5, 8080⟩)] :=
  c1_amended_theorem stWay connIn false reqConnect oOk ⟨5, 8080⟩ wWaypointed []
    rfl rfl (Or.inr rfl) (by decide) (by decide) (by decide)

/-- C2 (code bug): on the upstream-dial-failure path the connection is
registered, serve_connect answers 503, and release is never called — the
events of the whole execution are exactly one register with no release,
contradicting the release-exactly-once invariant the claim states. -/
theorem c2_bug_eval :
    serve_connect stPlain connIn false reqConnect oDialFail =
      { status := 503, events := [.register connEff], rbacConsulted := true,
        dispatched := some { kind := .hbone, target := ⟨5, 8080⟩,
                             origSrc := none, copy := none } } ∧
    (serve_connect stPlain connIn false reqConnect oDialFail).events.count
      (.register connEff) = 1 ∧
    (serve_connect stPlain connIn false reqConnect oDialFail).events.count
      (.release connEff) = 0 := by decide

/-- C3, counterexample to the claim as stated: a ProxyProtocol dispatch
(native tunnel of protocol PROXY on port 7777) whose close-signal fires
still runs its copy to completion — the copy outcome is `completed`, not
`interrupted` — because the ProxyProtocol arm of handle_inbound does not
select on the close-signal. -/
theorem c3_counterexample :
    oClose.closeFired = true ∧
    (serve_connect stProxy connIn false reqConnect oClose).dispatched =
      some { kind := .proxyProtocol, target := ⟨5, 7777⟩, origSrc := none,
             copy := some (.completed false) } ∧
    (serve_connect stProxy connIn false reqConnect oClose).status = 200 := by decide

/-- C3 (amended): for the DirectPath and Hbone variants the copy phase
selects on the close-signal — once it has fired, any copy that ran ended
interrupted — and the spawned task still calls release exactly once; the
ProxyProtocol variant lacks the select (see the counterexample). -/
theorem c3_amended_theorem (kind : ConnectKind) (o : TaskOracles) (conn : Connection)
    (hk : kind ≠ .proxyProtocol) (hc : o.closeFired = true) :
    (∀ c, copy_phase kind o = some c → c = .interrupted) ∧
    (o.dialOk = true → o.trackSome = true →
      (handle_inbound kind o conn).2.1 = [.release conn]) := by
  constructor
  · intro c hcp
    cases kind with
    | directPath =>
      unfold copy_phase at hcp
      rw [hc] at hcp
      simp at hcp
      exact hcp.symm
    | hbone =>
      unfold copy_phase at hcp
      rw [hc] at hcp
      cases hu : o.upgradeOk with
      | true =>
        rw [hu] at hcp
        simp at hcp
        exact hcp.symm
      | false =>
        rw [hu] at hcp
        simp at hcp
    | proxyProtocol => exact absurd rfl hk
  · intro hd ht
    simp [handle_inbound, hd, ht]

/-- C3 witness: an Hbone copy with the close-signal fired ends interrupted
and the task still releases. -/
theorem c3_witness :
    copy_phase .hbone oClose = some .interrupted ∧
    (handle_inbound .hbone oClose connIn).2.1 = [.release connIn] :=
  ⟨by decide, (c3_amended_theorem .hbone oClose connIn (by decide) rfl).2 rfl rfl⟩

/-- C5: serve_connect returns exactly the specified status on every path:
404 for a non-CONNECT method; 400 for an unparsable authority; 400 when the
authority IP mismatches the TCP destination with no waypoint relation; 404
when the destination workload is unknown; and, once admitted, 503 exactly
when the upstream dial fails and 200 exactly when it succeeds. -/
theorem c5_theorem (st : StateStore) (conn0 : Connection) (e : Bool) (req : Req)
    (o : TaskOracles) :
    (req.method = .other → (serve_connect st conn0 e req o).status = 404) ∧
    (req.method = .CONNECT → req.uriAuthority = none →
      (serve_connect st conn0 e req o).status = 400) ∧
    (∀ hbone, req.method = .CONNECT → req.uriAuthority = some hbone →
      check_sandwich st conn0 hbone = false → hbone.ip ≠ conn0.dst.ip →
      (serve_connect st conn0 e req o).status = 400) ∧
    (∀ hbone, req.method = .CONNECT → req.uriAuthority = some hbone →
      (check_sandwich st conn0 hbone = true ∨ hbone.ip = conn0.dst.ip) →
      st.fetch_workload_services
        ⟨conn0.dstNetwork, (effective_conn st conn0 hbone).dst.ip⟩ = none →
      (serve_connect st conn0 e req o).status = 404) ∧
    (∀ hbone upstream svcs, req.method = .CONNECT → req.uriAuthority = some hbone →
      (check_sandwich st conn0 hbone = true ∨ hbone.ip = conn0.dst.ip) →
      st.fetch_workload_services
        ⟨conn0.dstNetwork, (effective_conn st conn0 hbone).dst.ip⟩ = some (upstream, svcs) →
      ¬((check_waypoint st upstream (effective_conn st conn0 hbone) ||
          check_sandwich st conn0 hbone) = false ∧
        st.assert_rbac (effective_conn st conn0 hbone) = false) →
      ¬(upstream.waypoint.isSome = true ∧
        check_waypoint st upstream (effective_conn st conn0 hbone) = false) →
      (o.dialOk = false → (serve_connect st conn0 e req o).status = 503) ∧
      (o.dialOk = true → (serve_connect st conn0 e req o).status = 200)) := by
  refine ⟨?_, ?_, ?_, ?_, ?_⟩
  · intro h
    rw [serve_connect_not_connect st conn0 e req o h]
  · intro hm ha
    rw [serve_connect_no_authority st conn0 e req o hm ha]
  · intro hbone hm ha hs hip
    rw [serve_connect_ip_mismatch st conn0 e req o hbone hm ha hs hip]
  · intro hbone hm ha hip hf
    rw [serve_connect_unknown st conn0 e req o hbone hm ha hip hf]
  · intro hbone upstream svcs hm ha hip hf hna hnb
    rw [serve_connect_fetch_some st conn0 e req o hbone upstream svcs hm ha hip hf,
      post_fetch_dispatch st (effective_conn st conn0 hbone) (check_sandwich st conn0 hbone)
        upstream e req o hna hnb]
    constructor
    · intro hd
      simp [dispatch_result, handle_inbound_fst, hd]
    · intro hd
      simp [dispatch_result, handle_inbound_fst, hd]

/-- C5 witness: each specified status at a concrete input — 404 for a GET,
400 for a bad authority, 400 for an IP mismatch, 404 for an unknown
destination, 503 for a failed dial, 200 for a successful one. -/
theorem c5_witness :
    (serve_connect stPlain connIn false reqOther oOk).status = 404 ∧
    (serve_connect stPlain connIn false reqBadAuth oOk).status = 400 ∧
    (serve_connect stPlain connIn false reqMismatch oOk).status = 400 ∧
    (serve_connect stEmpty connIn false reqConnect oOk).status = 404 ∧
    (serve_connect stPlain connIn false reqConnect oDialFail).status = 503 ∧
    (serve_connect stPlain connIn false reqConnect oOk).status = 200 :=
  ⟨(c5_theorem stPlain connIn false reqOther oOk).1 rfl,
   (c5_theorem stPlain connIn false reqBadAuth oOk).2.1 rfl rfl,
   (c5_theorem stPlain connIn false reqMismatch oOk).2.2.1 ⟨6, 80⟩ rfl rfl
     (by decide) (by decide),
   (c5_theorem stEmpty connIn false reqConnect oOk).2.2.2.1 ⟨5, 8080⟩ rfl rfl
     (Or.inr rfl) (by decide),
   ((c5_theorem stPlain connIn false reqConnect oDialFail).2.2.2.2 ⟨5, 8080⟩ wPlain []
     rfl rfl (Or.inr rfl) (by decide) (by decide) (by decide)).1 rfl,
   ((c5_theorem stPlain connIn false reqConnect oOk).2.2.2.2 ⟨5, 8080⟩ wPlain []
     rfl rfl (Or.inr rfl) (by decide) (by decide) (by decide)).2 rfl⟩

/-- C6: for every inbound CONNECT that reaches admission, RBAC is consulted
if and only if the peer is not the destination's waypoint and the flow is
not a sandwich flow (being from a network gateway gives no exemption: the
condition mentions only those two), and a consulted deny yields 401 with
the registration released. -/
theorem c6_theorem (st : StateStore) (conn0 : Connection) (e : Bool) (req : Req)
    (o : TaskOracles) (hbone : SocketAddr) (upstream : Workload) (svcs : List Service)
    (hm : req.method = .CONNECT) (ha : req.uriAuthority = some hbone)
    (hip : check_sandwich st conn0 hbone = true ∨ hbone.ip = conn0.dst.ip)
    (hf : st.fetch_workload_services
      ⟨conn0.dstNetwork, (effective_conn st conn0 hbone).dst.ip⟩ = some (upstream, svcs)) :
    ((serve_connect st conn0 e req o).rbacConsulted = true ↔
      (check_waypoint st upstream (effective_conn st conn0 hbone) = false ∧
       check_sandwich st conn0 hbone = false)) ∧
    (check_waypoint st upstream (effective_conn st conn0 hbone) = false →
      check_sandwich st conn0 hbone = false →
      st.assert_rbac (effective_conn st conn0 hbone) = false →
      (serve_connect st conn0 e req o).status = 401 ∧
      (serve_connect st conn0 e req o).events =
        [.register (effective_conn st conn0 hbone),
         .release (effective_conn st conn0 hbone)]) := by
  rw [serve_connect_fetch_some st conn0 e req o hbone upstream svcs hm ha hip hf]
  constructor
  · unfold post_fetch dispatch_result
    cases hfw : check_waypoint st upstream (effective_conn st conn0 hbone) <;>
      cases hsw : check_sandwich st conn0 hbone <;>
      cases hrb : st.assert_rbac (effective_conn st conn0 hbone) <;>
      simp [hfw, hsw, hrb] <;> split <;> rfl
  · intro h1 h2 h3
    rw [post_fetch_deny st (effective_conn st conn0 hbone) (check_sandwich st conn0 hbone)
      upstream e req o (by simp [h1, h2]) h3]
    exact ⟨rfl, rfl⟩

/-- C6 witness: scenario S2 — RBAC denies a plain inbound flow: 401 and the
registration is released. -/
theorem c6_witness :
    (serve_connect stDeny connIn false reqConnect oOk).status = 401 ∧
    (serve_connect stDeny connIn false reqConnect oOk).events =
      [.register (effective_conn stDeny connIn ⟨5, 8080⟩),
       .release (effective_conn stDeny connIn ⟨5, 8080⟩)] :=
  (c6_theorem stDeny connIn false reqConnect oOk ⟨5, 8080⟩ wPlain []
    rfl rfl (Or.inr rfl) (by decide)).2 (by decide) (by decide) rfl

end Inbound

end Ztunnel
